import Mathlib

/-!
Verification of the faultline.ai job-orchestration and content-addressed
caching pipeline against its natural-language specification.

The development embeds, as executable Lean definitions:
* the SHA-256 content fingerprint used by the analyze submission route
  (Node `crypto.createHash("sha256").update(content).digest("hex")`);
* the Next.js `POST` analyze route handler (request validation, hashing,
  job construction);
* the client fetch wrapper `api` (`client/lib/api.ts`);
* the client status-polling hook `useJobStatus`
  (`client/lib/hooks/job-status.ts`), as a state-transition function over
  a stream of server replies;
* the backend submit/orchestrator/synthesis pipeline, modelled from the
  specification where the Python server sources are not available.
-/

namespace Faultline

/-! ## SHA-256 over byte lists

Executable embedding of the SHA-256 digest (FIPS 180-4) as used by
`crypto.createHash("sha256").update(content).digest("hex")` in the analyze
route: UTF-8 bytes of the content string, hex-encoded digest. All 32-bit
words are represented as `Nat` reduced modulo `2 ^ 32`.
-/

/-- 32-bit mask. -/
def w32 : Nat := 4294967296

/-- Truncate to a 32-bit word. -/
def m32 (x : Nat) : Nat := x % w32

/-- 32-bit right rotation. -/
def rotr32 (k x : Nat) : Nat := m32 ((x >>> k) ||| (x <<< (32 - k)))

/-- 32-bit bitwise complement. -/
def not32 (x : Nat) : Nat := 4294967295 ^^^ x

/-- SHA-256 `Ch` function. -/
def ch32 (x y z : Nat) : Nat := (x &&& y) ^^^ (not32 x &&& z)

/-- SHA-256 `Maj` function. -/
def maj32 (x y z : Nat) : Nat := (x &&& y) ^^^ (x &&& z) ^^^ (y &&& z)

/-- SHA-256 big sigma 0. -/
def bsig0 (x : Nat) : Nat := rotr32 2 x ^^^ rotr32 13 x ^^^ rotr32 22 x

/-- SHA-256 big sigma 1. -/
def bsig1 (x : Nat) : Nat := rotr32 6 x ^^^ rotr32 11 x ^^^ rotr32 25 x

/-- SHA-256 small sigma 0. -/
def ssig0 (x : Nat) : Nat := rotr32 7 x ^^^ rotr32 18 x ^^^ (x >>> 3)

/-- SHA-256 small sigma 1. -/
def ssig1 (x : Nat) : Nat := rotr32 17 x ^^^ rotr32 19 x ^^^ (x >>> 10)

/-- The 64 SHA-256 round constants (decimal). -/
def sha256K : List Nat :=
  [1116352408, 1899447441, 3049323471, 3921009573, 961987163, 1508970993,
   2453635748, 2870763221, 3624381080, 310598401, 607225278, 1426881987,
   1925078388, 2162078206, 2614888103, 3248222580, 3835390401, 4022224774,
   264347078, 604807628, 770255983, 1249150122, 1555081692, 1996064986,
   2554220882, 2821834349, 2952996808, 3210313671, 3336571891, 3584528711,
   113926993, 338241895, 666307205, 773529912, 1294757372, 1396182291,
   1695183700, 1986661051, 2177026350, 2456956037, 2730485921, 2820302411,
   3259730800, 3345764771, 3516065817, 3600352804, 4094571909, 275423344,
   430227734, 506948616, 659060556, 883997877, 958139571, 1322822218,
   1537002063, 1747873779, 1955562222, 2024104815, 2227730452, 2361852424,
   2428436474, 2756734187, 3204031479, 3329325298]

/-- Initial SHA-256 hash state (decimal). -/
def sha256H0 : List Nat :=
  [1779033703, 3144134277, 1013904242, 2773480762,
   1359893119, 2600822924, 528734635, 1541459225]

/-- Big-endian decomposition of a `Nat` into `k` bytes. -/
def beBytes (k n : Nat) : List Nat :=
  match k with
  | 0 => []
  | k + 1 => beBytes k (n >>> 8) ++ [n &&& 255]

/-- SHA-256 message padding: append `0x80`, zero bytes, and the 64-bit
big-endian bit length, reaching a multiple of 64 bytes. -/
def sha256Pad (msg : List Nat) : List Nat :=
  let len := msg.length
  let zeros := (64 - (len + 9) % 64) % 64
  msg ++ [0x80] ++ List.replicate zeros 0 ++ beBytes 8 (len * 8)

/-- Group a byte list into big-endian 32-bit words. -/
def toWords : List Nat → List Nat
  | a :: b :: c :: d :: rest =>
      (((a <<< 8 ||| b) <<< 8 ||| c) <<< 8 ||| d) :: toWords rest
  | _ => []

/-- Extend 16 message words to the 64-entry message schedule (built in
reverse: head is the newest word). -/
def sha256SchedRev (rev : List Nat) : Nat → List Nat
  | 0 => rev
  | n + 1 =>
      match rev with
      | _ :: w2 :: _ :: _ :: _ :: _ :: w7 :: _ :: _ :: _ :: _ :: _ :: _ ::
        _ :: w15 :: w16 :: _ =>
          sha256SchedRev
            (m32 (ssig1 w2 + w7 + ssig0 w15 + w16) :: rev) n
      | _ => rev

/-- The 64-word message schedule for one block. -/
def sha256Schedule (block : List Nat) : List Nat :=
  (sha256SchedRev block.reverse 48).reverse

/-- One SHA-256 round on state `(a,b,c,d,e,f,g,h)` with schedule word `w`
and round constant `k`. -/
def sha256Round (st : List Nat) (kw : Nat × Nat) : List Nat :=
  match st with
  | [a, b, c, d, e, f, g, h] =>
      let t1 := m32 (h + bsig1 e + ch32 e f g + kw.1 + kw.2)
      let t2 := m32 (bsig0 a + maj32 a b c)
      [m32 (t1 + t2), a, b, c, m32 (d + t1), e, f, g]
  | st => st

/-- Compress one 64-byte block into the hash state. -/
def sha256Block (h block : List Nat) : List Nat :=
  let ws := sha256Schedule (toWords block)
  let st := (sha256K.zip ws).foldl (fun s kw => sha256Round s kw) h
  (h.zip st).map (fun p => m32 (p.1 + p.2))

/-- Fold the compression function over successive 64-byte blocks; the fuel
argument bounds the number of blocks and makes the recursion structural. -/
def sha256BlocksGo (fuel : Nat) (h : List Nat) (msg : List Nat) : List Nat :=
  match fuel, msg with
  | 0, _ => h
  | _, [] => h
  | fuel + 1, msg => sha256BlocksGo fuel (sha256Block h (msg.take 64)) (msg.drop 64)

/-- Split a padded message into 64-byte blocks and fold the compression
function over them. -/
def sha256Blocks (h : List Nat) (msg : List Nat) : List Nat :=
  sha256BlocksGo (msg.length / 64 + 1) h msg

/-- SHA-256 digest of a byte list, as 32 bytes. -/
def sha256Bytes (msg : List Nat) : List Nat :=
  ((sha256Blocks sha256H0 (sha256Pad msg)).map (beBytes 4)).flatten

/-- A nibble as a lowercase hex character. -/
def hexDigit (n : Nat) : Char :=
  if n < 10 then Char.ofNat (48 + n) else Char.ofNat (87 + n)

/-- Lowercase hex encoding of a byte list. -/
def toHex (bs : List Nat) : String :=
  String.mk (bs.flatMap (fun b => [hexDigit (b >>> 4), hexDigit (b &&& 15)]))

/-- UTF-8 encoding of one character, as bytes. -/
def utf8Bytes (c : Char) : List Nat :=
  let n := c.toNat
  if n < 0x80 then [n]
  else if n < 0x800 then [0xC0 ||| (n >>> 6), 0x80 ||| (n &&& 0x3F)]
  else if n < 0x10000 then
    [0xE0 ||| (n >>> 12), 0x80 ||| ((n >>> 6) &&& 0x3F), 0x80 ||| (n &&& 0x3F)]
  else
    [0xF0 ||| (n >>> 18), 0x80 ||| ((n >>> 12) &&& 0x3F),
     0x80 ||| ((n >>> 6) &&& 0x3F), 0x80 ||| (n &&& 0x3F)]

/-- UTF-8 bytes of a string. -/
def strBytes (s : String) : List Nat := s.data.flatMap utf8Bytes

/-- `crypto.createHash("sha256").update(s).digest("hex")`: the hex SHA-256
digest of the UTF-8 bytes of `s`. -/
def sha256Hex (s : String) : String := toHex (sha256Bytes (strBytes s))

/-! ## The analyze route (Next.js `POST` handler)

Embedding of the route handler: validation of the request body, the
SHA-256 content hash, and the returned analysis-job record. The random
UUID and the creation timestamp are effects of the runtime and enter the
embedding as explicit arguments.
-/

/-- Caller-supplied metadata annotations (`metadata` body field). -/
structure Metadata where
  repo : Option String := none
  team : Option String := none
  riskTolerance : Option String := none
  depth : Option String := none
deriving DecidableEq, Repr

/-- A parsed `POST /artifacts/analyze` request body; absent JSON fields
are `none`. -/
structure AnalyzeBody where
  content : Option String := none
  contentType : Option String := none
  metadata : Option Metadata := none
deriving DecidableEq, Repr

/-- JavaScript falsiness of an optional string field: absent (`undefined`)
or the empty string. -/
def jsFalsy : Option String → Bool
  | none => true
  | some s => s = ""

/-- The analysis-job record returned by the route on success. -/
structure AnalysisJob where
  job_id : String
  content_hash : String
  content_type : String
  metadata : Metadata
  status : String
  created_at : String
deriving DecidableEq, Repr

/-- A JSON response from the route: an error body or a job body, with the
HTTP status code. -/
inductive RouteResponse where
  | failure (httpStatus : Nat) (msg : String)
  | json (httpStatus : Nat) (job : AnalysisJob)
deriving DecidableEq, Repr

/-- The `POST` handler of the analyze route: requires truthy `content` and
`contentType`, requires `contentType` to be one of the three supported
kinds, hashes the content with SHA-256, and answers `201` with the job
record (status string `"pending"`). `jobId` stands for
`crypto.randomUUID()` and `createdAt` for `new Date().toISOString()`. -/
def analyzePOST (body : AnalyzeBody) (jobId createdAt : String) : RouteResponse :=
  if jsFalsy body.content || jsFalsy body.contentType then
    .failure 400 "content and contentType are required"
  else if body.contentType ≠ some "markdown" ∧ body.contentType ≠ some "openapi-yaml" ∧
      body.contentType ≠ some "openapi-json" then
    .failure 400 "Invalid contentType. Must be markdown, openapi-yaml, or openapi-json"
  else
    .json 201
      { job_id := jobId
        content_hash := sha256Hex (body.content.getD "")
        content_type := body.contentType.getD ""
        metadata := body.metadata.getD {}
        status := "pending"
        created_at := createdAt }

/-! ## The client fetch wrapper (`client/lib/api.ts`)

`api` performs a `fetch` inside a `try`/`catch` and always returns a
`{data, error}` pair. The nondeterministic outcome of the `fetch` call and
of `response.json()` is an explicit argument of the embedding.
-/

/-- The `{data, error}` pair produced by the wrapper (and by the server
actions built on it). -/
structure ApiResponse (α : Type) where
  data : Option α
  error : Option String
deriving DecidableEq, Repr

/-- One observable outcome of `fetch` plus body decoding: either the fetch
(or an `await` before the status check) threw — with `some msg` when the
thrown value was an `Error` — or a response arrived with an HTTP status,
a status text, a raw body text, and the outcome of `response.json()`
(which may itself throw, or produce the JSON value `null`, modelled as
`Except.ok none`). -/
inductive FetchOutcome (α : Type) where
  | throws (msg : Option String)
  | responds (status : Nat) (statusText : String) (bodyText : String)
      (jsonOutcome : Except String (Option α))
deriving Repr

/-- `Response.ok`: HTTP status in the range 200–299. -/
def resOk (status : Nat) : Bool := 200 ≤ status && status ≤ 299

/-- The `api` wrapper: on a thrown exception returns the error message (or
`"Network error"` for a non-`Error` value); on a non-ok status returns an
`API Error` string built from the body text or status text; otherwise
returns the decoded JSON value as `data`. -/
def api {α : Type} (o : FetchOutcome α) : ApiResponse α :=
  match o with
  | .throws m => ⟨none, some (match m with | some s => s | none => "Network error")⟩
  | .responds status statusText bodyText jsonOutcome =>
      if resOk status then
        match jsonOutcome with
        | .ok v => ⟨v, none⟩
        | .error e => ⟨none, some e⟩
      else
        ⟨none, some ("API Error (" ++ toString status ++ "): " ++
          (if bodyText = "" then statusText else bodyText))⟩

/-- Did the fetch itself throw? -/
def fetchThrew {α : Type} : FetchOutcome α → Bool
  | .throws _ => true
  | .responds _ _ _ _ => false

/-- Did a response arrive with an ok status? -/
def fetchOk {α : Type} : FetchOutcome α → Bool
  | .throws _ => false
  | .responds status _ _ _ => resOk status

/-- Did `response.json()` throw? -/
def fetchJsonThrew {α : Type} : FetchOutcome α → Bool
  | .responds _ _ _ (.error _) => true
  | _ => false

/-- Did `response.json()` produce a non-null value? -/
def fetchJsonNonnull {α : Type} : FetchOutcome α → Bool
  | .responds _ _ _ (.ok (some _)) => true
  | _ => false

example : sha256Hex "abc" =
    "ba7816bf8f01cfea414140de5dae2223b00361a396177a9cb410ff61f20015ad" := by
  decide

example : sha256Hex "" =
    "e3b0c44298fc1c149afbf4c8996fb92427ae41e4649b934ca495991b7852b855" := by
  decide

set_option maxRecDepth 32768 in
example : sha256Hex "abcdbcdecdefdefgefghfghighijhijkijkljklmklmnlmnomnopnopq" =
    "248d6a61d20638b8e5c026930c3e6039a33ce45964ff2167f6ecedd419db06c1" := by
  decide

/-! ## The status-polling hook (`client/lib/hooks/job-status.ts`)

`useJobStatus` polls `getJobStatus` every five seconds, records the
returned status, stops polling on a fetch error or on a terminal status,
fetches the result only after observing `completed`, and sets a `"Job
failed"` error after observing `failed`. The embedding is a transition
function on the hook's state, consuming one server reply per poll tick;
the `observed` field instruments the successive `setStatus` calls. -/

/-- The job status enum shared by the client and the server. -/
inductive JobStatus where
  | queued
  | running
  | completed
  | failed
deriving DecidableEq, Repr

/-- Terminal statuses of a job. -/
def JobStatus.isTerminal : JobStatus → Bool
  | .completed => true
  | .failed => true
  | _ => false

/-- The `data` payload of a successful `getJobStatus` reply. -/
structure StatusData where
  status : JobStatus
  progress_hint : Option String := none
deriving DecidableEq, Repr

/-- JavaScript `a || b` on an optional error string: falls back on the
default when the string is absent or empty. -/
def jsOr (o : Option String) (dflt : String) : String :=
  match o with
  | some s => if s = "" then dflt else s
  | none => dflt

/-- JavaScript truthiness of an optional string (used for
`if (statusError || !data)` and `if (progressHint)`). -/
def jsTruthy (o : Option String) : Bool :=
  match o with
  | some s => s ≠ ""
  | none => false

/-- The replies a single poll tick can consume: the `{data, error}` pair
from `getJobStatus`, and the pair from `getJobResult` (read only when the
tick observes `completed`). -/
structure PollInput (ρ : Type) where
  statusReply : ApiResponse StatusData
  resultReply : ApiResponse ρ

/-- The hook's state: the four `useState` cells, whether the poll
interval is still alive, the number of `getJobResult` invocations, and the
instrumented list of statuses passed to `setStatus`. -/
structure HookState (ρ : Type) where
  status : JobStatus
  result : Option ρ
  error : Option String
  progressHint : Option String
  polling : Bool
  resultFetches : Nat
  observed : List JobStatus
deriving Repr

/-- The hook's initial state: status `queued`, no result, no error,
polling live. -/
def hookInit (ρ : Type) : HookState ρ :=
  { status := .queued, result := none, error := none, progressHint := none,
    polling := true, resultFetches := 0, observed := [] }

/-- `fetchResult`: on an error or missing data the failure is only logged
and the state is unchanged; otherwise the result cell is set. -/
def fetchResultStep {ρ : Type} (s : HookState ρ) (r : ApiResponse ρ) : HookState ρ :=
  if jsTruthy r.error || r.data.isNone then s else { s with result := r.data }

/-- One `pollStatus` tick. A dead interval consumes nothing. A fetch error
or missing data sets the error cell and stops polling. Otherwise the
returned status is recorded; `completed` stops polling and triggers the
result fetch, `failed` stops polling and sets the `"Job failed"` error. -/
def pollStep {ρ : Type} (s : HookState ρ) (inp : PollInput ρ) : HookState ρ :=
  if ¬ s.polling then s
  else if jsTruthy inp.statusReply.error || inp.statusReply.data.isNone then
    { s with error := some (jsOr inp.statusReply.error "Failed to fetch job status"),
             polling := false }
  else
    match inp.statusReply.data with
    | none => s
    | some sd =>
        let s1 := { s with
          status := sd.status
          observed := s.observed ++ [sd.status]
          progressHint :=
            if jsTruthy sd.progress_hint then sd.progress_hint else s.progressHint }
        match sd.status with
        | .completed =>
            fetchResultStep
              { s1 with polling := false, resultFetches := s1.resultFetches + 1 }
              inp.resultReply
        | .failed =>
            { s1 with polling := false,
                      error := some (jsOr inp.statusReply.error "Job failed") }
        | _ => s1

/-- The polling loop: fold the tick function over the stream of replies. -/
def runPolling {ρ : Type} (s : HookState ρ) (inputs : List (PollInput ρ)) : HookState ρ :=
  inputs.foldl pollStep s

/-- A poll input whose status fetch succeeded with `sd` (the result reply
is irrelevant unless the status is `completed`; `rr` supplies it). -/
def okInput {ρ : Type} (sd : StatusData) (rr : ApiResponse ρ) : PollInput ρ :=
  { statusReply := ⟨some sd, none⟩, resultReply := rr }

/-- Reachability order of the job state machine
(`Queued → Running → {Completed, Failed}`, terminals absorbing):
`statusLe a b` holds when a job observed in state `a` can later be
observed in state `b`. -/
def statusLe : JobStatus → JobStatus → Bool
  | .queued, _ => true
  | .running, .queued => false
  | .running, _ => true
  | .completed, .completed => true
  | .failed, .failed => true
  | _, _ => false

/-- A status sequence is a valid sampling of one job's lifecycle when
each consecutive pair respects the reachability order — the statuses a
poller can see, stuttering and stage-skipping included. -/
def chainLe : List JobStatus → Bool
  | [] => true
  | [_] => true
  | a :: b :: rest => statusLe a b && chainLe (b :: rest)

/-- Collapse consecutive duplicates of a list. -/
def dedupConsec {α : Type} [DecidableEq α] : List α → List α
  | [] => []
  | [a] => [a]
  | a :: b :: rest =>
      if a = b then dedupConsec (b :: rest) else a :: dedupConsec (b :: rest)

/-- Order-preserving subsequence test. -/
def subseqOf {α : Type} [DecidableEq α] : List α → List α → Bool
  | [], _ => true
  | _ :: _, [] => false
  | a :: as, b :: bs => if a = b then subseqOf as bs else subseqOf (a :: as) bs

/-- The statuses the hook records when fed a stream of successful status
replies: every status up to and including the first terminal one. -/
def obsOf : List JobStatus → List JobStatus
  | [] => []
  | s :: rest => if s.isTerminal then [s] else s :: obsOf rest

/-! ## The backend pipeline, modelled from the specification

The FastAPI backend sources (`server/app/routers/analysis.py` and its
collaborators) are not available here; only the repository's architecture
documents and the specification describe them. The definitions below are
therefore modelled from the spec: the submit operation (fingerprint, cache
lookup, job creation, run start), the orchestrator
(size guard → normalize → heuristics → synthesize → persist), and the
Synthesis Client's nested retry budgets. External collaborators
(Normalizer, Heuristic Engine, Synthesizer) enter as explicit oracles,
and the state carries instrumentation counters for their invocations. -/

/-- A data point of a chart (numeric values modelled as integers). -/
structure ChartPoint where
  label : String
  value : Int
deriving DecidableEq, Repr

/-- A chart of the analysis report. -/
structure Chart where
  title : String
  ctype : String
  description : String
  data : List ChartPoint
deriving DecidableEq, Repr

/-- A finding of the analysis report. -/
structure Finding where
  title : String
  description : String
  category : String
  severity : String
  rationale : String
  remediation : String
deriving DecidableEq, Repr

/-- A heuristic finding: a finding with a confidence level and a source
tag, passed through the orchestrator opaquely. -/
structure HeuristicFinding extends Finding where
  confidence : String
  source : String
deriving DecidableEq, Repr

/-- Modelled from the spec: the raw payload a Synthesizer attempt
returns, in the shape of `AnalysisData` (score, summary, findings,
charts, next steps, narrative markdown report). -/
structure RawReport where
  score : Int
  summary : String
  findings : List Finding
  charts : List Chart
  nextSteps : List String
  markdownReport : String
deriving DecidableEq, Repr

/-- Modelled from the spec: schema validation of a Synthesizer payload —
integer score in `[0,100]`, non-empty summary, exactly three charts,
a non-empty next-steps list, non-empty narrative text. -/
def schemaValid (r : RawReport) : Bool :=
  0 ≤ r.score && r.score ≤ 100 && r.summary ≠ "" && r.charts.length = 3 &&
    r.nextSteps ≠ [] && r.markdownReport ≠ ""

/-- What the external Synthesizer does on one invocation: a
transport/provider failure, or a returned payload (possibly
schema-invalid). -/
inductive SynthAttempt where
  | providerFail
  | output (r : RawReport)
deriving DecidableEq, Repr

/-- Retry budget on transport/provider failure (`retries=3` in the agent
configuration). -/
def nRetries : Nat := 3

/-- Retry budget on schema-validation failure of the returned payload
(`output_retries=3` in the agent configuration). -/
def mRetries : Nat := 3

/-- Outcome of the schema-retry loop inside one provider attempt. -/
inductive InnerOutcome where
  | valid (r : RawReport) (next : Nat)
  | provider (next : Nat)
  | exhausted

/-- Modelled from the spec: the schema-retry loop of the Synthesis
Client. `behavior k` is what the Synthesizer does on its `k`-th
invocation; `fuel` is the remaining schema budget. A provider failure
breaks out to the provider-retry loop; a schema-invalid payload
re-invokes the Synthesizer until the schema budget is spent. -/
def synthInner (behavior : Nat → SynthAttempt) : Nat → Nat → InnerOutcome
  | _, 0 => .exhausted
  | k, fuel + 1 =>
      match behavior k with
      | .providerFail => .provider (k + 1)
      | .output r =>
          if schemaValid r then .valid r (k + 1) else synthInner behavior (k + 1) fuel

/-- Modelled from the spec: the provider-retry loop of the Synthesis
Client. Each provider attempt runs the schema-retry loop with a fresh
schema budget (output-schema retries are nested inside agent-call
retries); exhausting either budget fails the call. -/
def synthOuter (behavior : Nat → SynthAttempt) : Nat → Nat → Option RawReport
  | _, 0 => none
  | k, n + 1 =>
      match synthInner behavior k mRetries with
      | .valid r _ => some r
      | .provider k2 => synthOuter behavior k2 n
      | .exhausted => none

/-- Modelled from the spec: `synthesize` — invoke the Synthesizer under
both retry budgets, returning the first schema-valid payload. -/
def synthesize (behavior : Nat → SynthAttempt) : Option RawReport :=
  synthOuter behavior 0 nRetries

/-- Modelled from the spec: a job record of the Job Store. -/
structure BackJob where
  jobId : String
  fingerprint : String
  status : JobStatus
  progressHint : Option String
  metadata : Metadata
  result : Option RawReport
  reportText : Option String
  error : Option String
deriving DecidableEq, Repr

/-- Modelled from the spec: a cache entry — the result and its narrative
text, keyed by content fingerprint. -/
structure CacheEntry where
  result : RawReport
  reportText : String
deriving DecidableEq, Repr

/-- External collaborators of the orchestrator: the Normalizer (total),
the Heuristic Engine (total), and the Synthesizer's behavior. -/
structure Collaborators where
  normalize : String → String → String
  heuristics : String → List HeuristicFinding
  synthBehavior : Nat → SynthAttempt

/-- Environment configuration of the pipeline (content-size ceiling,
default 500000 bytes). -/
structure Config where
  maxContentSize : Nat := 500000

/-- Modelled from the spec: the shared system state — the Job Store, the
Result Cache, and instrumentation counting started orchestrator runs and
invocations of each external collaborator. -/
structure SysState where
  jobs : List (String × BackJob)
  cache : List (String × CacheEntry)
  runsStarted : Nat
  normCalls : Nat
  heurCalls : Nat
  synthCalls : Nat

/-- The empty system state. -/
def sysInit : SysState :=
  { jobs := [], cache := [], runsStarted := 0, normCalls := 0, heurCalls := 0,
    synthCalls := 0 }

/-- Job Store lookup. -/
def jobGet (st : SysState) (jobId : String) : Option BackJob :=
  (st.jobs.find? (fun p => p.1 = jobId)).map (·.2)

/-- Replace the entry for `jobId` by `j` (no effect when absent). -/
def jobPut (st : SysState) (jobId : String) (j : BackJob) : SysState :=
  { st with jobs := st.jobs.map (fun p => if p.1 = jobId then (p.1, j) else p) }

/-- Modelled from the spec: `create(job_id, fingerprint, metadata)` —
a fresh job in state `Queued`. -/
def jobCreate (st : SysState) (jobId fp : String) (md : Metadata) : SysState :=
  { st with jobs := (jobId,
      { jobId := jobId, fingerprint := fp, status := .queued, progressHint := none,
        metadata := md, result := none, reportText := none, error := none }) :: st.jobs }

/-- Modelled from the spec: `transition(job_id, status, progress_hint?)`. -/
def jobTransition (st : SysState) (jobId : String) (status : JobStatus)
    (hint : Option String) : SysState :=
  match jobGet st jobId with
  | none => st
  | some j => jobPut st jobId { j with status := status, progressHint := hint }

/-- Modelled from the spec: `complete(job_id, result, report_text)`. -/
def jobComplete (st : SysState) (jobId : String) (r : RawReport)
    (text : String) : SysState :=
  match jobGet st jobId with
  | none => st
  | some j =>
      jobPut st jobId
        { j with status := .completed, result := some r, reportText := some text }

/-- Modelled from the spec: `fail(job_id, error)`. -/
def jobFail (st : SysState) (jobId : String) (msg : String) : SysState :=
  match jobGet st jobId with
  | none => st
  | some j => jobPut st jobId { j with status := .failed, error := some msg }

/-- Result Cache lookup by fingerprint. -/
def cacheLookup (st : SysState) (fp : String) : Option CacheEntry :=
  (st.cache.find? (fun p => p.1 = fp)).map (·.2)

/-- Modelled from the spec: `store(fingerprint, result, report_text)` —
idempotent overwrite. -/
def cacheStore (st : SysState) (fp : String) (r : RawReport)
    (text : String) : SysState :=
  { st with cache := (fp, ⟨r, text⟩) :: st.cache.filter (fun p => p.1 ≠ fp) }

/-- The size-limit diagnostic stored on the guard path. -/
def sizeErrMsg : String := "content exceeds the maximum content size limit"

/-- Count one Normalizer invocation. -/
def bumpNorm (st : SysState) : SysState := { st with normCalls := st.normCalls + 1 }

/-- Count one Heuristic Engine invocation. -/
def bumpHeur (st : SysState) : SysState := { st with heurCalls := st.heurCalls + 1 }

/-- Count one Synthesis Client invocation. -/
def bumpSynth (st : SysState) : SysState := { st with synthCalls := st.synthCalls + 1 }

/-- Modelled from the spec: the orchestrator `run` — guard the content
size before any parsing, then transition to `Running` and drive
normalize → heuristics → synthesize; on synthesis success write the cache
entry and complete the job, on failure fail the job. Collaborator
invocations bump the instrumentation counters. -/
def runPipeline (cfg : Config) (ext : Collaborators) (st : SysState)
    (jobId content contentKind fp : String) : SysState :=
  if content.length > cfg.maxContentSize then
    jobFail st jobId sizeErrMsg
  else
    let st1 := jobTransition st jobId .running (some "normalizing")
    let artifact := ext.normalize content contentKind
    let st2 := bumpNorm st1
    let st3 := jobTransition st2 jobId .running (some "running heuristics")
    let _findings := ext.heuristics artifact
    let st4 := bumpHeur st3
    let st5 := jobTransition st4 jobId .running (some "synthesizing")
    let st6 := bumpSynth st5
    match synthesize ext.synthBehavior with
    | some r =>
        let st7 := cacheStore st6 fp r r.markdownReport
        jobComplete st7 jobId r r.markdownReport
    | none => jobFail st6 jobId "synthesis failed: retry budget exhausted"

/-- The response of the submit operation: the job identifier, the job's
status as returned to the caller, and the cached payload on a hit. -/
structure SubmitResponse where
  jobId : String
  status : JobStatus
  cached : Option CacheEntry
deriving Repr

/-- Modelled from the spec: the submit operation of the API Surface —
fingerprint the content, look the fingerprint up in the Result Cache; on
a hit answer a completed job with the cached payload, starting no run;
on a miss create a `Queued` job, start exactly one orchestrator run
asynchronously, and answer `{job_id, status: queued}`. -/
def submit (cfg : Config) (ext : Collaborators) (st : SysState)
    (jobId content contentKind : String) (md : Metadata) :
    SysState × SubmitResponse :=
  let fp := sha256Hex content
  match cacheLookup st fp with
  | some e => (st, { jobId := jobId, status := .completed, cached := some e })
  | none =>
      let st1 := jobCreate st jobId fp md
      let st2 := { st1 with runsStarted := st1.runsStarted + 1 }
      let st3 := runPipeline cfg ext st2 jobId content contentKind fp
      (st3, { jobId := jobId, status := .queued, cached := none })

/-! ## Helper definitions for the statements and witnesses -/

/-- The job status string of a route response, when the response carries
a job. -/
def jobStatusOf : RouteResponse → Option String
  | .json _ job => some job.status
  | .failure _ _ => none

/-- The content hash of a route response, when the response carries a
job. -/
def jobHashOf : RouteResponse → Option String
  | .json _ job => some job.content_hash
  | .failure _ _ => none

/-- Poll inputs whose status fetches all succeed with the given payloads
and whose result replies are empty. -/
def mkInputs (ρ : Type) (l : List StatusData) : List (PollInput ρ) :=
  l.map (fun sd => okInput sd ⟨none, none⟩)

/-- The tail of the completed lifecycle chain starting at a status. -/
def allowedC : JobStatus → List JobStatus
  | .queued => [.queued, .running, .completed]
  | .running => [.running, .completed]
  | .completed => [.completed]
  | .failed => []

/-- The tail of the failed lifecycle chain starting at a status. -/
def allowedF : JobStatus → List JobStatus
  | .queued => [.queued, .running, .failed]
  | .running => [.running, .failed]
  | .completed => []
  | .failed => [.failed]

/-- Invariant of the polling hook's state: a populated result implies a
`completed` status and a dead interval, result fetches happen only once
polling has stopped, and an observed `failed` status comes with a dead
interval, no result fetch, and a reported error. -/
def hookInv {ρ : Type} (s : HookState ρ) : Prop :=
  (s.result.isSome → s.status = .completed ∧ s.polling = false) ∧
  (s.resultFetches ≠ 0 → s.polling = false) ∧
  (s.resultFetches = 0 → s.result = none) ∧
  (JobStatus.failed ∈ s.observed →
    s.polling = false ∧ s.resultFetches = 0 ∧ s.error ≠ none)

/-- The hex SHA-256 digest of `"# API"`. -/
def apiHash : String :=
  "b0d67a4666b3952ae73dfbd2f0ebf13789a6270d02b5b24066cf7eb53a5943de"

/-- Sample request body: markdown content with metadata. -/
def bodyA : AnalyzeBody :=
  { content := some "# API", contentType := some "markdown",
    metadata := some { team := some "platform" } }

/-- Sample request body: the same content declared as OpenAPI JSON, with
no metadata. -/
def bodyB : AnalyzeBody :=
  { content := some "# API", contentType := some "openapi-json" }

/-- The job the route builds for `bodyA`. -/
def jobA : AnalysisJob :=
  { job_id := "ja", content_hash := apiHash, content_type := "markdown",
    metadata := { team := some "platform" }, status := "pending", created_at := "ta" }

/-- The job the route builds for `bodyB`. -/
def jobB : AnalysisJob :=
  { job_id := "jb", content_hash := apiHash, content_type := "openapi-json",
    metadata := {}, status := "pending", created_at := "tb" }

/-- A sample chart. -/
def chart1 : Chart :=
  { title := "Findings by severity", ctype := "bar", description := "d", data := [] }

/-- A schema-valid sample report (three charts, non-empty summary, next
steps and narrative, score in range). -/
def goodReport : RawReport :=
  { score := 72, summary := "ready", findings := [], charts := [chart1, chart1, chart1],
    nextSteps := ["review"], markdownReport := "# Report" }

/-- A schema-invalid sample report (wrong chart count). -/
def badReport : RawReport := { goodReport with charts := [] }

/-- Collaborators whose Synthesizer always returns a valid payload. -/
def alwaysGood : Collaborators :=
  { normalize := fun _ _ => "norm", heuristics := fun _ => [],
    synthBehavior := fun _ => .output goodReport }

/-- Collaborators whose Synthesizer returns schema-invalid payloads on
its first two attempts and a valid payload on its third. -/
def thirdTimeValid : Collaborators :=
  { alwaysGood with
    synthBehavior := fun k => if k < 2 then .output badReport else .output goodReport }

/-- Collaborators whose Synthesizer never returns a valid payload. -/
def neverValid : Collaborators :=
  { alwaysGood with synthBehavior := fun _ => .output badReport }

/-- The system state after one full successful submission of `"# API"`
(its cache entry is written). -/
def submittedOnce : SysState :=
  (submit {} alwaysGood sysInit "job-1" "# API" "markdown" {}).1

/-- A store holding one queued job `job-1`. -/
def stJob : SysState := jobCreate sysInit "job-1" "fp" {}

/-- The queued record of `job-1` in `stJob`. -/
def queuedJob1 : BackJob :=
  { jobId := "job-1", fingerprint := "fp", status := .queued, progressHint := none,
    metadata := {}, result := none, reportText := none, error := none }

set_option maxRecDepth 4096 in
example :
    analyzePOST { content := some "# API", contentType := some "markdown" } "j1" "t1" =
      .json 201
        { job_id := "j1"
          content_hash :=
            "b0d67a4666b3952ae73dfbd2f0ebf13789a6270d02b5b24066cf7eb53a5943de"
          content_type := "markdown"
          metadata := {}
          status := "pending"
          created_at := "t1" } := by
  decide

/-! ## C10 — totality of the `api` wrapper -/

/-- C10, as stated, is false: the wrapper never throws, but when an ok
response's body is the JSON literal `null`, `response.json()` resolves to
`null` and the wrapper returns `{data: null, error: null}` — neither
field is non-null. Concrete input: a 200 response with body `"null"`. -/
theorem api_pair_counterexample :
    ¬ ∀ (α : Type) (o : FetchOutcome α),
        ((api o).data.isSome = !(api o).error.isSome) ∧
        ((api o).error.isSome = (fetchThrew o || !fetchOk o)) := by
  intro h
  exact absurd (h Nat (.responds 200 "OK" "null" (.ok none))) (by decide)

/-- C10 amended: for every fetch outcome the wrapper returns a pair with
at most one non-null field; `error` is non-null exactly when the fetch
threw, the status was not ok, or `response.json()` threw; `data` is
non-null exactly when none of those happened and the decoded JSON value
is itself non-null (so both fields are null exactly for an ok response
whose body decodes to JSON `null`). -/
theorem api_pair_characterization :
    ∀ (α : Type) (o : FetchOutcome α),
      ((api o).error.isSome = (fetchThrew o || !fetchOk o || fetchJsonThrew o)) ∧
      ((api o).data.isSome = (!fetchThrew o && fetchOk o && fetchJsonNonnull o)) ∧
      ¬((api o).data.isSome ∧ (api o).error.isSome) := by
  intro α o
  cases o with
  | throws m =>
      cases m <;>
        simp [api, fetchThrew, fetchOk, fetchJsonThrew, fetchJsonNonnull]
  | responds status statusText bodyText j =>
      cases j with
      | error e =>
          by_cases h : resOk status = true <;>
            simp [api, fetchThrew, fetchOk, fetchJsonThrew, fetchJsonNonnull, h]
      | ok v =>
          cases v <;> by_cases h : resOk status = true <;>
            simp [api, fetchThrew, fetchOk, fetchJsonThrew, fetchJsonNonnull, h]

/-! ## C8 — request validation of the analyze route -/

/-- C8: a request body missing `content` or `contentType`, or declaring a
`contentType` outside the three supported kinds, is answered with a 400
error and no job; a body with non-empty content and a supported
`contentType` is answered with a 201 job. -/
theorem analyze_validation :
    (∀ (body : AnalyzeBody) (jobId createdAt : String),
        (body.content = none ∨ body.contentType = none ∨
          (body.contentType ≠ some "markdown" ∧ body.contentType ≠ some "openapi-yaml" ∧
            body.contentType ≠ some "openapi-json")) →
        ∃ msg, analyzePOST body jobId createdAt = .failure 400 msg) ∧
    (∀ (body : AnalyzeBody) (jobId createdAt : String) (c ct : String),
        body.content = some c → c ≠ "" → body.contentType = some ct →
        (ct = "markdown" ∨ ct = "openapi-yaml" ∨ ct = "openapi-json") →
        ∃ job, analyzePOST body jobId createdAt = .json 201 job) := by
  constructor
  · rintro body jobId createdAt (h | h | ⟨h1, h2, h3⟩)
    · exact ⟨"content and contentType are required", by simp [analyzePOST, jsFalsy, h]⟩
    · exact ⟨"content and contentType are required", by simp [analyzePOST, jsFalsy, h]⟩
    · by_cases hf : (jsFalsy body.content || jsFalsy body.contentType) = true
      · exact ⟨"content and contentType are required", by simp [analyzePOST, hf]⟩
      · exact ⟨"Invalid contentType. Must be markdown, openapi-yaml, or openapi-json",
          by simp [analyzePOST, hf, h1, h2, h3]⟩
  · intro body jobId createdAt c ct hc hcne hct hmem
    have hf : (jsFalsy body.content || jsFalsy body.contentType) = false := by
      rcases hmem with h | h | h <;> simp [jsFalsy, hc, hct, hcne, h]
    have hv : ¬(body.contentType ≠ some "markdown" ∧ body.contentType ≠ some "openapi-yaml" ∧
        body.contentType ≠ some "openapi-json") := by
      rcases hmem with h | h | h <;> simp [hct, h]
    simp only [analyzePOST, hf, Bool.false_eq_true, if_false, hv, if_neg,
      Bool.or_eq_true, not_false_eq_true]
    exact ⟨_, rfl⟩

/-- C8 witness: a body with no `contentType` is rejected with a 400
error, and a well-formed markdown body is answered with a 201 job. -/
theorem analyze_validation_witness :
    (∃ msg, analyzePOST { content := some "# API" } "j" "t" = .failure 400 msg) ∧
    (∃ job, analyzePOST
        { content := some "# API", contentType := some "markdown" } "j" "t" =
      .json 201 job) :=
  ⟨analyze_validation.1 _ "j" "t" (Or.inr (Or.inl rfl)),
   analyze_validation.2 _ "j" "t" "# API" "markdown" rfl (by decide) rfl (Or.inl rfl)⟩

/-! ## C4 — the fingerprint depends only on the content -/

/-- Any successful route response carries the SHA-256 hash of the body's
content and nothing else. -/
theorem hash_of_success (b : AnalyzeBody) (jobId createdAt : String) (s : Nat)
    (job : AnalysisJob) (h : analyzePOST b jobId createdAt = .json s job) :
    job.content_hash = sha256Hex (b.content.getD "") := by
  unfold analyzePOST at h
  split at h
  · exact absurd h (by simp)
  · split at h
    · exact absurd h (by simp)
    · cases h
      rfl

/-- C4: the computed content fingerprint depends only on the submitted
content — two accepted requests with byte-identical content but arbitrary
metadata and declared content type hash identically. -/
theorem fingerprint_noninterference :
    ∀ (b1 b2 : AnalyzeBody) (j1 t1 j2 t2 : String) (s1 s2 : Nat)
      (job1 job2 : AnalysisJob),
      analyzePOST b1 j1 t1 = .json s1 job1 →
      analyzePOST b2 j2 t2 = .json s2 job2 →
      b1.content = b2.content →
      job1.content_hash = job2.content_hash := by
  intro b1 b2 j1 t1 j2 t2 s1 s2 job1 job2 h1 h2 hc
  rw [hash_of_success b1 j1 t1 s1 job1 h1, hash_of_success b2 j2 t2 s2 job2 h2, hc]

set_option maxRecDepth 4096 in
/-- C4 witness: `bodyA` and `bodyB` share their content but differ in
metadata and declared content type; their computed hashes coincide. -/
theorem fingerprint_noninterference_witness :
    analyzePOST bodyA "ja" "ta" = .json 201 jobA ∧
    analyzePOST bodyB "jb" "tb" = .json 201 jobB ∧
    jobA.content_hash = jobB.content_hash :=
  ⟨by decide, by decide,
   fingerprint_noninterference bodyA bodyB "ja" "ta" "jb" "tb" 201 201 jobA jobB
     (by decide) (by decide) rfl⟩

/-! ## C2 — status of the analyze route's success response -/

set_option maxRecDepth 4096 in
/-- C2: the analyze route present in the sources answers a valid fresh
submission with a job whose status string is `"pending"`, not the
specified `"queued"`. -/
theorem analyze_route_status_pending :
    jobStatusOf (analyzePOST
        { content := some "# API", contentType := some "markdown" }
        "job-1" "2026-01-01T00:00:00.000Z") = some "pending" ∧
      ("pending" : String) ≠ "queued" := by
  constructor
  · decide
  · decide

/-! ## Job Store lemmas -/

/-- Replacing the value found under a present key makes lookup return the
replacement. -/
theorem find_put (l : List (String × BackJob)) (k : String) (x : BackJob)
    (h : (l.find? (fun p => p.1 = k)).isSome = true) :
    (l.map (fun p => if p.1 = k then (p.1, x) else p)).find? (fun p => p.1 = k) =
      some (k, x) := by
  induction l with
  | nil => simp at h
  | cons a l ih =>
      by_cases hk : a.1 = k
      · subst hk
        simp [List.find?_cons]
      · rw [List.find?_cons_of_neg _ (by simp [hk])] at h
        simp only [List.map_cons, if_neg hk]
        rw [List.find?_cons_of_neg _ (by simp [hk])]
        exact ih h

/-- Lookup after `jobPut` on a present job. -/
theorem jobGet_jobPut (st : SysState) (k : String) (j x : BackJob)
    (h : jobGet st k = some j) : jobGet (jobPut st k x) k = some x := by
  have hs : (st.jobs.find? (fun p => p.1 = k)).isSome = true := by
    unfold jobGet at h
    cases hf : st.jobs.find? (fun p => p.1 = k) <;> simp [hf] at h ⊢
  unfold jobGet jobPut
  rw [find_put st.jobs k x hs]
  rfl

/-- Lookup after a status transition. -/
theorem jobGet_transition (st : SysState) (k : String) (s : JobStatus)
    (hint : Option String) (j : BackJob) (h : jobGet st k = some j) :
    jobGet (jobTransition st k s hint) k =
      some { j with status := s, progressHint := hint } := by
  unfold jobTransition
  rw [h]
  exact jobGet_jobPut st k j _ h

/-- Lookup after `jobComplete`. -/
theorem jobGet_complete (st : SysState) (k : String) (r : RawReport) (text : String)
    (j : BackJob) (h : jobGet st k = some j) :
    jobGet (jobComplete st k r text) k =
      some { j with status := .completed, result := some r, reportText := some text } := by
  unfold jobComplete
  rw [h]
  exact jobGet_jobPut st k j _ h

/-- Lookup after `jobFail`. -/
theorem jobGet_fail (st : SysState) (k : String) (msg : String)
    (j : BackJob) (h : jobGet st k = some j) :
    jobGet (jobFail st k msg) k =
      some { j with status := .failed, error := some msg } := by
  unfold jobFail
  rw [h]
  exact jobGet_jobPut st k j _ h

/-- `jobTransition` leaves every field but the job list unchanged. -/
theorem jobTransition_counters (st : SysState) (k : String) (s : JobStatus)
    (hint : Option String) :
    (jobTransition st k s hint).runsStarted = st.runsStarted ∧
    (jobTransition st k s hint).normCalls = st.normCalls ∧
    (jobTransition st k s hint).heurCalls = st.heurCalls ∧
    (jobTransition st k s hint).synthCalls = st.synthCalls := by
  unfold jobTransition
  cases jobGet st k <;> exact ⟨rfl, rfl, rfl, rfl⟩

/-- `jobFail` leaves every field but the job list unchanged. -/
theorem jobFail_counters (st : SysState) (k msg : String) :
    (jobFail st k msg).runsStarted = st.runsStarted ∧
    (jobFail st k msg).normCalls = st.normCalls ∧
    (jobFail st k msg).heurCalls = st.heurCalls ∧
    (jobFail st k msg).synthCalls = st.synthCalls := by
  unfold jobFail
  cases jobGet st k <;> exact ⟨rfl, rfl, rfl, rfl⟩

/-- `jobComplete` leaves every field but the job list unchanged. -/
theorem jobComplete_counters (st : SysState) (k : String) (r : RawReport) (text : String) :
    (jobComplete st k r text).runsStarted = st.runsStarted ∧
    (jobComplete st k r text).normCalls = st.normCalls ∧
    (jobComplete st k r text).heurCalls = st.heurCalls ∧
    (jobComplete st k r text).synthCalls = st.synthCalls := by
  unfold jobComplete
  cases jobGet st k <;> exact ⟨rfl, rfl, rfl, rfl⟩

/-- An orchestrator run never changes the count of started runs — runs
are started by the API Surface alone. -/
theorem runPipeline_runsStarted (cfg : Config) (ext : Collaborators) (st : SysState)
    (jobId content kind fp : String) :
    (runPipeline cfg ext st jobId content kind fp).runsStarted = st.runsStarted := by
  unfold runPipeline
  split
  · exact (jobFail_counters st jobId sizeErrMsg).1
  · cases hs : synthesize ext.synthBehavior <;>
      simp [hs, (jobFail_counters _ _ _).1, (jobComplete_counters _ _ _ _).1,
        (jobTransition_counters _ _ _ _).1, cacheStore, bumpNorm, bumpHeur, bumpSynth]

/-! ## C1 — cache short-circuit of the submit operation -/

/-- C1 (spec-modelled backend): on a cache hit the submit operation
returns the cached result with a completed status, leaves the system
state untouched — in particular it invokes the Synthesis Client zero
times and starts no orchestrator run; on a cache miss it starts exactly
one run and answers a queued job. -/
theorem submit_cache_short_circuit (cfg : Config) (ext : Collaborators) (st : SysState)
    (jobId content kind : String) (md : Metadata) :
    (∀ e, cacheLookup st (sha256Hex content) = some e →
        submit cfg ext st jobId content kind md =
          (st, { jobId := jobId, status := .completed, cached := some e }) ∧
        (submit cfg ext st jobId content kind md).1.synthCalls = st.synthCalls ∧
        (submit cfg ext st jobId content kind md).1.runsStarted = st.runsStarted) ∧
    (cacheLookup st (sha256Hex content) = none →
        (submit cfg ext st jobId content kind md).1.runsStarted = st.runsStarted + 1 ∧
        (submit cfg ext st jobId content kind md).2 =
          { jobId := jobId, status := .queued, cached := none }) := by
  constructor
  · intro e he
    have h1 : submit cfg ext st jobId content kind md =
        (st, { jobId := jobId, status := .completed, cached := some e }) := by
      unfold submit
      simp only [he]
    exact ⟨h1, by rw [h1], by rw [h1]⟩
  · intro he
    unfold submit
    simp only [he]
    refine ⟨?_, trivial⟩
    rw [runPipeline_runsStarted]
    rfl

set_option maxRecDepth 32768 in
/-- C1 witness: after one full successful submission of `"# API"` has
written its cache entry, submitting byte-identical content again returns
the cached report, changes nothing, and starts no second run. -/
theorem submit_cache_short_circuit_witness :
    submit {} alwaysGood submittedOnce "job-2" "# API" "markdown" {} =
      (submittedOnce,
        { jobId := "job-2", status := .completed,
          cached := some ⟨goodReport, goodReport.markdownReport⟩ }) :=
  ((submit_cache_short_circuit {} alwaysGood submittedOnce "job-2" "# API" "markdown"
      {}).1 ⟨goodReport, goodReport.markdownReport⟩ (by decide)).1

/-! ## C5 — the size guard -/

/-- C5 (spec-modelled backend): content longer than the configured
ceiling drives the job to `Failed` with the size-limit diagnostic, and
the Normalizer, the Heuristic Engine and the Synthesis Client are not
invoked. -/
theorem size_guard (cfg : Config) (ext : Collaborators) (st : SysState)
    (jobId content kind fp : String) (j : BackJob)
    (hj : jobGet st jobId = some j)
    (hbig : content.length > cfg.maxContentSize) :
    jobGet (runPipeline cfg ext st jobId content kind fp) jobId =
      some { j with status := .failed, error := some sizeErrMsg } ∧
    (runPipeline cfg ext st jobId content kind fp).normCalls = st.normCalls ∧
    (runPipeline cfg ext st jobId content kind fp).heurCalls = st.heurCalls ∧
    (runPipeline cfg ext st jobId content kind fp).synthCalls = st.synthCalls := by
  have hr : runPipeline cfg ext st jobId content kind fp = jobFail st jobId sizeErrMsg := by
    unfold runPipeline
    rw [if_pos hbig]
  rw [hr]
  exact ⟨jobGet_fail st jobId sizeErrMsg j hj, (jobFail_counters st jobId sizeErrMsg).2.1,
    (jobFail_counters st jobId sizeErrMsg).2.2.1, (jobFail_counters st jobId sizeErrMsg).2.2.2⟩

/-- C5 witness: with a 4-byte ceiling, the 5-byte content `"# API"`
fails the queued job with the size diagnostic and leaves all
collaborator counters at zero. -/
theorem size_guard_witness :
    jobGet (runPipeline { maxContentSize := 4 } alwaysGood stJob "job-1" "# API"
        "markdown" "fp") "job-1" =
      some { queuedJob1 with status := .failed, error := some sizeErrMsg } ∧
    (runPipeline { maxContentSize := 4 } alwaysGood stJob "job-1" "# API"
        "markdown" "fp").normCalls = stJob.normCalls ∧
    (runPipeline { maxContentSize := 4 } alwaysGood stJob "job-1" "# API"
        "markdown" "fp").heurCalls = stJob.heurCalls ∧
    (runPipeline { maxContentSize := 4 } alwaysGood stJob "job-1" "# API"
        "markdown" "fp").synthCalls = stJob.synthCalls :=
  size_guard { maxContentSize := 4 } alwaysGood stJob "job-1" "# API" "markdown" "fp"
    queuedJob1 (by decide) (by decide)

/-! ## C7 — retry budgets of the Synthesis Client -/

/-- A Synthesizer that yields schema-invalid payloads on attempts 0 and 1
and a valid payload on attempt 2 succeeds within the schema budget. -/
theorem synthesize_third_attempt (b : Nat → SynthAttempt) (r0 r1 v : RawReport)
    (h0 : b 0 = .output r0) (h0v : schemaValid r0 = false)
    (h1 : b 1 = .output r1) (h1v : schemaValid r1 = false)
    (h2 : b 2 = .output v) (h2v : schemaValid v = true) :
    synthesize b = some v := by
  unfold synthesize synthOuter
  simp [nRetries, mRetries, synthInner, h0, h0v, h1, h1v, h2, h2v]

/-- The inner loop never yields a payload when the Synthesizer never
returns a schema-valid one. -/
theorem synthInner_never_valid (b : Nat → SynthAttempt)
    (h : ∀ k r, b k = .output r → schemaValid r = false) :
    ∀ (fuel k : Nat), synthInner b k fuel = .exhausted ∨
      ∃ k2, synthInner b k fuel = .provider k2 := by
  intro fuel
  induction fuel with
  | zero => intro k; exact Or.inl rfl
  | succ fuel ih =>
      intro k
      cases hb : b k with
      | providerFail => exact Or.inr ⟨k + 1, by simp [synthInner, hb]⟩
      | output r =>
          have hv := h k r hb
          have := ih (k + 1)
          simpa [synthInner, hb, hv] using this

/-- The Synthesis Client fails once both budgets are spent on a
Synthesizer that never returns a schema-valid payload. -/
theorem synthesize_never_valid (b : Nat → SynthAttempt)
    (h : ∀ k r, b k = .output r → schemaValid r = false) :
    synthesize b = none := by
  unfold synthesize
  generalize 0 = k0
  induction nRetries generalizing k0 with
  | zero => rfl
  | succ n ih =>
      rcases synthInner_never_valid b h mRetries k0 with hin | ⟨k2, hin⟩
      · simp [synthOuter, hin]
      · simp [synthOuter, hin, ih]

/-- Status of the job after a pipeline run on admissible content: the
outcome of the synthesis call decides between `Completed` and `Failed`. -/
theorem pipeline_status (cfg : Config) (ext : Collaborators) (st : SysState)
    (jobId content kind fp : String) (j : BackJob)
    (hj : jobGet st jobId = some j)
    (hsize : ¬ content.length > cfg.maxContentSize) :
    ∃ j2, jobGet (runPipeline cfg ext st jobId content kind fp) jobId = some j2 ∧
      j2.status = (match synthesize ext.synthBehavior with
        | some _ => JobStatus.completed
        | none => JobStatus.failed) := by
  unfold runPipeline
  rw [if_neg hsize]
  have g1 := jobGet_transition st jobId .running (some "normalizing") j hj
  have g2 := jobGet_transition
    (bumpNorm (jobTransition st jobId .running (some "normalizing")))
    jobId .running (some "running heuristics") _ g1
  have g3 := jobGet_transition
    (bumpHeur (jobTransition
      (bumpNorm (jobTransition st jobId .running (some "normalizing")))
      jobId .running (some "running heuristics")))
    jobId .running (some "synthesizing") _ g2
  cases hs : synthesize ext.synthBehavior with
  | some r =>
      simp only [hs]
      exact ⟨_, jobGet_complete
        (cacheStore (bumpSynth (jobTransition
          (bumpHeur (jobTransition
            (bumpNorm (jobTransition st jobId .running (some "normalizing")))
            jobId .running (some "running heuristics")))
          jobId .running (some "synthesizing"))) fp r r.markdownReport)
        jobId r r.markdownReport _ g3, rfl⟩
  | none =>
      simp only [hs]
      exact ⟨_, jobGet_fail
        (bumpSynth (jobTransition
          (bumpHeur (jobTransition
            (bumpNorm (jobTransition st jobId .running (some "normalizing")))
            jobId .running (some "running heuristics")))
          jobId .running (some "synthesizing")))
        jobId "synthesis failed: retry budget exhausted" _ g3, rfl⟩

/-- C7 (spec-modelled Synthesis Client, budgets from the agent
configuration): with the provider budget at 3 and the schema budget at 3,
a Synthesizer that is schema-invalid on its first two attempts and valid
on its third yields a `Completed` job, and one that never returns valid
output within the budgets yields a `Failed` job. -/
theorem synthesis_retry_budget (cfg : Config) (ext : Collaborators) (st : SysState)
    (jobId content kind fp : String) (j : BackJob)
    (hj : jobGet st jobId = some j)
    (hsize : ¬ content.length > cfg.maxContentSize) :
    nRetries = 3 ∧ mRetries = 3 ∧
    (∀ r0 r1 v, ext.synthBehavior 0 = .output r0 → schemaValid r0 = false →
        ext.synthBehavior 1 = .output r1 → schemaValid r1 = false →
        ext.synthBehavior 2 = .output v → schemaValid v = true →
        ∃ j2, jobGet (runPipeline cfg ext st jobId content kind fp) jobId = some j2 ∧
          j2.status = .completed) ∧
    ((∀ k r, ext.synthBehavior k = .output r → schemaValid r = false) →
        ∃ j2, jobGet (runPipeline cfg ext st jobId content kind fp) jobId = some j2 ∧
          j2.status = .failed) := by
  refine ⟨rfl, rfl, ?_, ?_⟩
  · intro r0 r1 v h0 h0v h1 h1v h2 h2v
    obtain ⟨j2, hg, hstat⟩ := pipeline_status cfg ext st jobId content kind fp j hj hsize
    refine ⟨j2, hg, ?_⟩
    rw [hstat, synthesize_third_attempt ext.synthBehavior r0 r1 v h0 h0v h1 h1v h2 h2v]
  · intro hnever
    obtain ⟨j2, hg, hstat⟩ := pipeline_status cfg ext st jobId content kind fp j hj hsize
    refine ⟨j2, hg, ?_⟩
    rw [hstat, synthesize_never_valid ext.synthBehavior hnever]

/-- C7 witness: on the queued job store, a third-time-valid Synthesizer
completes the job and an always-invalid one fails it. -/
theorem synthesis_retry_budget_witness :
    (∃ j2, jobGet (runPipeline {} thirdTimeValid stJob "job-1" "# API" "markdown" "fp")
        "job-1" = some j2 ∧ j2.status = .completed) ∧
    (∃ j2, jobGet (runPipeline {} neverValid stJob "job-1" "# API" "markdown" "fp")
        "job-1" = some j2 ∧ j2.status = .failed) :=
  ⟨(synthesis_retry_budget {} thirdTimeValid stJob "job-1" "# API" "markdown" "fp"
      queuedJob1 (by decide) (by decide)).2.2.1 badReport badReport goodReport
      (by decide) (by decide) (by decide) (by decide) (by decide) (by decide),
   (synthesis_retry_budget {} neverValid stJob "job-1" "# API" "markdown" "fp"
      queuedJob1 (by decide) (by decide)).2.2.2
      (fun k r hk => by
        simp only [neverValid, alwaysGood] at hk
        cases hk
        decide)⟩

/-! ## C9 — results only for completed jobs -/

/-- The initial hook state satisfies the invariant. -/
theorem hookInv_init (ρ : Type) : hookInv (hookInit ρ) := by
  unfold hookInv hookInit
  simp

/-- One poll tick preserves the hook invariant. -/
theorem hookInv_step {ρ : Type} (s : HookState ρ) (inp : PollInput ρ)
    (h : hookInv s) : hookInv (pollStep s inp) := by
  obtain ⟨h1, h2, h3, h4⟩ := h
  by_cases hp : s.polling = true
  · unfold pollStep
    rw [if_neg (by simp [hp])]
    by_cases he : (jsTruthy inp.statusReply.error || inp.statusReply.data.isNone) = true
    · rw [if_pos he]
      refine ⟨?_, fun _ => rfl, fun hf => h3 hf, ?_⟩
      · intro hr
        exact absurd (h1 hr).2 (by simp [hp])
      · intro hf
        exact absurd (h4 hf).1 (by simp [hp])
    · rw [if_neg he]
      cases hd : inp.statusReply.data with
      | none => exact ⟨h1, h2, h3, h4⟩
      | some sd =>
          obtain ⟨sst, shint⟩ := sd
          have hfe : s.resultFetches = 0 := by
            by_contra hne
            exact absurd (h2 hne) (by simp [hp])
          cases sst with
          | queued =>
              dsimp only
              refine ⟨?_, ?_, fun _ => h3 hfe, ?_⟩
              · intro hr
                exact absurd (h1 hr).2 (by simp [hp])
              · intro hf
                exact absurd (h2 hf) (by simp [hp])
              · intro hf
                simp only [List.mem_append, List.mem_singleton] at hf
                rcases hf with hf | hf
                · exact absurd (h4 hf).1 (by simp [hp])
                · exact absurd hf (by decide)
          | running =>
              dsimp only
              refine ⟨?_, ?_, fun _ => h3 hfe, ?_⟩
              · intro hr
                exact absurd (h1 hr).2 (by simp [hp])
              · intro hf
                exact absurd (h2 hf) (by simp [hp])
              · intro hf
                simp only [List.mem_append, List.mem_singleton] at hf
                rcases hf with hf | hf
                · exact absurd (h4 hf).1 (by simp [hp])
                · exact absurd hf (by decide)
          | completed =>
              dsimp only
              unfold fetchResultStep
              by_cases hc : (jsTruthy inp.resultReply.error ||
                  inp.resultReply.data.isNone) = true
              · rw [if_pos hc]
                refine ⟨?_, fun _ => rfl, ?_, ?_⟩
                · intro hr
                  exact absurd (h1 hr).2 (by simp [hp])
                · intro hf
                  simp at hf
                · intro hf
                  simp only [List.mem_append, List.mem_singleton] at hf
                  rcases hf with hf | hf
                  · exact absurd (h4 hf).1 (by simp [hp])
                  · exact absurd hf (by decide)
              · rw [if_neg hc]
                dsimp only
                refine ⟨fun _ => ⟨rfl, rfl⟩, fun _ => rfl, ?_, ?_⟩
                · intro hf
                  simp at hf
                · intro hf
                  simp only [List.mem_append, List.mem_singleton] at hf
                  rcases hf with hf | hf
                  · exact absurd (h4 hf).1 (by simp [hp])
                  · exact absurd hf (by decide)
          | failed =>
              dsimp only
              refine ⟨?_, fun _ => rfl, fun _ => h3 hfe, ?_⟩
              · intro hr
                exact absurd (h1 hr).2 (by simp [hp])
              · intro _
                exact ⟨rfl, hfe, by simp⟩
  · unfold pollStep
    rw [if_pos (by simp [hp])]
    exact ⟨h1, h2, h3, h4⟩

/-- The polling loop preserves the hook invariant. -/
theorem hookInv_run {ρ : Type} (s : HookState ρ) (inputs : List (PollInput ρ))
    (h : hookInv s) : hookInv (runPolling s inputs) := by
  induction inputs generalizing s with
  | nil => exact h
  | cons inp rest ih => exact ih (pollStep s inp) (hookInv_step s inp h)

/-- C9: whatever replies the server produces, the hook's result cell is
populated only when the last recorded status is `completed`; and once
`failed` is observed the result endpoint was never invoked, the result
stays null, and a (distinct) error message is reported. -/
theorem result_only_when_completed (ρ : Type) (inputs : List (PollInput ρ)) :
    ((runPolling (hookInit ρ) inputs).result.isSome →
      (runPolling (hookInit ρ) inputs).status = .completed) ∧
    (JobStatus.failed ∈ (runPolling (hookInit ρ) inputs).observed →
      (runPolling (hookInit ρ) inputs).resultFetches = 0 ∧
      (runPolling (hookInit ρ) inputs).result = none ∧
      (runPolling (hookInit ρ) inputs).error ≠ none) := by
  obtain ⟨h1, h2, h3, h4⟩ := hookInv_run (hookInit ρ) inputs (hookInv_init ρ)
  refine ⟨fun hr => (h1 hr).1, fun hf => ⟨(h4 hf).2.1, h3 (h4 hf).2.1, (h4 hf).2.2⟩⟩

/-- C9 witness: a failed poll reply leaves the result null, never calls
the result endpoint, and reports the "Job failed" error. -/
theorem result_only_when_completed_witness :
    JobStatus.failed ∈
      (runPolling (hookInit Nat) [okInput ⟨.failed, none⟩ ⟨none, none⟩]).observed ∧
    (runPolling (hookInit Nat) [okInput ⟨.failed, none⟩ ⟨none, none⟩]).resultFetches = 0 ∧
    (runPolling (hookInit Nat) [okInput ⟨.failed, none⟩ ⟨none, none⟩]).result = none ∧
    (runPolling (hookInit Nat) [okInput ⟨.failed, none⟩ ⟨none, none⟩]).error ≠ none :=
  ⟨by decide,
   (result_only_when_completed Nat [okInput ⟨.failed, none⟩ ⟨none, none⟩]).2 (by decide)⟩

/-! ## C6 — the observed status lifecycle -/

/-- A tick with a dead interval changes nothing. -/
theorem pollStep_stopped {ρ : Type} (s : HookState ρ) (inp : PollInput ρ)
    (h : s.polling = false) : pollStep s inp = s := by
  unfold pollStep
  rw [if_pos (by simp [h])]

/-- Polling from a stopped state changes nothing. -/
theorem runPolling_stopped {ρ : Type} (s : HookState ρ) (inputs : List (PollInput ρ))
    (h : s.polling = false) : runPolling s inputs = s := by
  induction inputs with
  | nil => rfl
  | cons inp rest ih =>
      show runPolling (pollStep s inp) rest = s
      rw [pollStep_stopped s inp h]
      exact ih

/-- The result fetch never touches the polling flag or the observation
list. -/
theorem fetchResultStep_fields {ρ : Type} (s : HookState ρ) (r : ApiResponse ρ) :
    (fetchResultStep s r).polling = s.polling ∧
    (fetchResultStep s r).observed = s.observed := by
  unfold fetchResultStep
  split <;> exact ⟨rfl, rfl⟩

/-- Fed a stream of successful status replies, the hook records exactly
the statuses up to and including the first terminal one. -/
theorem runPolling_observed (ρ : Type) :
    ∀ (l : List StatusData) (st : JobStatus) (res : Option ρ) (err ph : Option String)
      (rf : Nat) (obs : List JobStatus),
      (runPolling
          { status := st, result := res, error := err, progressHint := ph,
            polling := true, resultFetches := rf, observed := obs }
          (mkInputs ρ l)).observed = obs ++ obsOf (l.map (·.status)) := by
  intro l
  induction l with
  | nil =>
      intro st res err ph rf obs
      simp [mkInputs, runPolling, obsOf]
  | cons sd rest ih =>
      intro st res err ph rf obs
      obtain ⟨sst, shint⟩ := sd
      cases sst with
      | queued =>
          show (runPolling
              { status := JobStatus.queued, result := res, error := err,
                progressHint := if jsTruthy shint = true then shint else ph,
                polling := true, resultFetches := rf,
                observed := obs ++ [JobStatus.queued] }
              (mkInputs ρ rest)).observed = _
          rw [ih]
          simp [obsOf, JobStatus.isTerminal]
      | running =>
          show (runPolling
              { status := JobStatus.running, result := res, error := err,
                progressHint := if jsTruthy shint = true then shint else ph,
                polling := true, resultFetches := rf,
                observed := obs ++ [JobStatus.running] }
              (mkInputs ρ rest)).observed = _
          rw [ih]
          simp [obsOf, JobStatus.isTerminal]
      | completed =>
          show (runPolling
              { status := JobStatus.completed, result := res, error := err,
                progressHint := if jsTruthy shint = true then shint else ph,
                polling := false, resultFetches := rf + 1,
                observed := obs ++ [JobStatus.completed] }
              (mkInputs ρ rest)).observed = _
          rw [runPolling_stopped _ _ rfl]
          simp [obsOf, JobStatus.isTerminal]
      | failed =>
          show (runPolling
              { status := JobStatus.failed, result := res, error := some "Job failed",
                progressHint := if jsTruthy shint = true then shint else ph,
                polling := false, resultFetches := rf,
                observed := obs ++ [JobStatus.failed] }
              (mkInputs ρ rest)).observed = _
          rw [runPolling_stopped _ _ rfl]
          simp [obsOf, JobStatus.isTerminal]

/-- `obsOf` preserves valid samplings of the lifecycle. -/
theorem obsOf_chain :
    ∀ l, chainLe l = true → chainLe (obsOf l) = true := by
  intro l
  induction l with
  | nil => intro _; rfl
  | cons s rest ih =>
      intro h
      unfold obsOf
      by_cases ht : s.isTerminal = true
      · rw [if_pos ht]
        rfl
      · rw [if_neg ht]
        cases rest with
        | nil => rfl
        | cons r rest' =>
            have hsplit : statusLe s r = true ∧ chainLe (r :: rest') = true := by
              have hh : (statusLe s r && chainLe (r :: rest')) = true := h
              exact Bool.and_eq_true_iff.mp hh
            have hih := ih hsplit.2
            by_cases hrt : r.isTerminal = true
            · rw [obsOf, if_pos hrt]
              show (statusLe s r && chainLe [r]) = true
              simp [hsplit.1, chainLe]
            · rw [obsOf, if_neg hrt]
              rw [obsOf, if_neg hrt] at hih
              show (statusLe s r && chainLe (r :: obsOf rest')) = true
              simp [hsplit.1, hih]

/-- No terminal status sits strictly inside the recorded observations. -/
theorem obsOf_dropLast :
    ∀ l, (obsOf l).dropLast.all (fun x => !x.isTerminal) = true := by
  intro l
  induction l with
  | nil => rfl
  | cons s rest ih =>
      unfold obsOf
      by_cases ht : s.isTerminal = true
      · rw [if_pos ht]
        rfl
      · rw [if_neg ht]
        cases hrest : obsOf rest with
        | nil => rfl
        | cons a as =>
            rw [List.dropLast_cons₂, List.all_cons]
            rw [hrest] at ih
            simp [ht, ih]

/-- The completed lifecycle tails embed into the full completed chain. -/
theorem allowedC_sub (s : JobStatus) :
    List.Sublist (allowedC s) [JobStatus.queued, .running, .completed] := by
  cases s <;> decide

/-- The failed lifecycle tails embed into the full failed chain. -/
theorem allowedF_sub (s : JobStatus) :
    List.Sublist (allowedF s) [JobStatus.queued, .running, .failed] := by
  cases s <;> decide

/-- Consecutive deduplication of a reachability chain embeds into the
lifecycle tail of its head, toward `completed` or toward `failed`. -/
theorem dedup_chain_allowed :
    ∀ (l : List JobStatus) (s : JobStatus), chainLe (s :: l) = true →
      List.Sublist (dedupConsec (s :: l)) (allowedC s) ∨
        List.Sublist (dedupConsec (s :: l)) (allowedF s) := by
  intro l
  induction l with
  | nil =>
      intro s _
      cases s
      · exact Or.inl (by decide)
      · exact Or.inl (by decide)
      · exact Or.inl (by decide)
      · exact Or.inr (by decide)
  | cons t l ih =>
      intro s hch
      have hpair : statusLe s t = true ∧ chainLe (t :: l) = true := by
        have hh : (statusLe s t && chainLe (t :: l)) = true := hch
        exact Bool.and_eq_true_iff.mp hh
      have hst : statusLe s t = true := hpair.1
      have hch' : chainLe (t :: l) = true := hpair.2
      by_cases hst2 : s = t
      · subst hst2
        have hd := ih s hch'
        simpa [dedupConsec] using hd
      · have hcons : dedupConsec (s :: t :: l) = s :: dedupConsec (t :: l) := by
          simp [dedupConsec, hst2]
        rw [hcons]
        rcases ih t hch' with hd | hd
        · cases s <;> cases t
          · exact absurd rfl hst2
          · exact Or.inl (hd.cons₂ _)
          · exact Or.inl ((hd.trans (by decide)).cons₂ _)
          · exact Or.inr ((hd.trans (List.nil_sublist _)).cons₂ _)
          · exact absurd hst (by decide)
          · exact absurd rfl hst2
          · exact Or.inl (hd.cons₂ _)
          · exact Or.inr ((hd.trans (List.nil_sublist _)).cons₂ _)
          · exact absurd hst (by decide)
          · exact absurd hst (by decide)
          · exact absurd rfl hst2
          · exact absurd hst (by decide)
          · exact absurd hst (by decide)
          · exact absurd hst (by decide)
          · exact absurd hst (by decide)
          · exact absurd rfl hst2
        · cases s <;> cases t
          · exact absurd rfl hst2
          · exact Or.inr (hd.cons₂ _)
          · exact Or.inl ((hd.trans (List.nil_sublist _)).cons₂ _)
          · exact Or.inr ((hd.trans (by decide)).cons₂ _)
          · exact absurd hst (by decide)
          · exact absurd rfl hst2
          · exact Or.inl ((hd.trans (List.nil_sublist _)).cons₂ _)
          · exact Or.inr (hd.cons₂ _)
          · exact absurd hst (by decide)
          · exact absurd hst (by decide)
          · exact absurd rfl hst2
          · exact absurd hst (by decide)
          · exact absurd hst (by decide)
          · exact absurd hst (by decide)
          · exact absurd hst (by decide)
          · exact absurd rfl hst2

/-- C6, as stated, is false: the first poll of a job that is already
terminal (for instance one answered from the cache, or one that
completed between polls) records `completed` alone, which is not a
prefix of either lifecycle chain. -/
theorem observed_prefix_counterexample :
    ¬ ∀ (ρ : Type) (l : List StatusData),
        chainLe (l.map (·.status)) = true →
        ((dedupConsec ((runPolling (hookInit ρ) (mkInputs ρ l)).observed)).isPrefixOf
            [JobStatus.queued, .running, .completed] = true ∨
          (dedupConsec ((runPolling (hookInit ρ) (mkInputs ρ l)).observed)).isPrefixOf
            [JobStatus.queued, .running, .failed] = true) := by
  intro h
  exact absurd (h Nat [⟨.completed, none⟩] (by decide)) (by decide)

/-- C6 amended: fed any monotone stream of server statuses, the distinct
statuses the hook records form a subsequence (stages may be skipped) of
`queued, running, completed` or of `queued, running, failed`; and no
terminal status is followed by a further observation. -/
theorem observed_lifecycle (ρ : Type) (l : List StatusData) :
    (chainLe (l.map (·.status)) = true →
      List.Sublist (dedupConsec ((runPolling (hookInit ρ) (mkInputs ρ l)).observed))
          [JobStatus.queued, .running, .completed] ∨
        List.Sublist (dedupConsec ((runPolling (hookInit ρ) (mkInputs ρ l)).observed))
          [JobStatus.queued, .running, .failed]) ∧
    ((runPolling (hookInit ρ) (mkInputs ρ l)).observed.dropLast.all
        (fun x => !x.isTerminal) = true) := by
  have hobs : (runPolling (hookInit ρ) (mkInputs ρ l)).observed =
      obsOf (l.map (·.status)) := by
    simpa using runPolling_observed ρ l .queued none none none 0 []
  constructor
  · intro hch
    rw [hobs]
    have hch2 := obsOf_chain _ hch
    cases hl : obsOf (l.map (·.status)) with
    | nil => exact Or.inl (by simp [dedupConsec])
    | cons a as =>
        rw [hl] at hch2
        rcases dedup_chain_allowed as a hch2 with hd | hd
        · exact Or.inl (hd.trans (allowedC_sub a))
        · exact Or.inr (hd.trans (allowedF_sub a))
  · rw [hobs]
    exact obsOf_dropLast _

/-- C6 witness: a queued–running–running–completed stream is monotone;
its deduplicated observations embed into a lifecycle chain and contain no
terminal status before the last observation. -/
theorem observed_lifecycle_witness :
    (List.Sublist (dedupConsec ((runPolling (hookInit Nat) (mkInputs Nat
          [⟨.queued, none⟩, ⟨.running, none⟩, ⟨.running, none⟩,
            ⟨.completed, none⟩])).observed))
        [JobStatus.queued, .running, .completed] ∨
      List.Sublist (dedupConsec ((runPolling (hookInit Nat) (mkInputs Nat
          [⟨.queued, none⟩, ⟨.running, none⟩, ⟨.running, none⟩,
            ⟨.completed, none⟩])).observed))
        [JobStatus.queued, .running, .failed]) ∧
    ((runPolling (hookInit Nat) (mkInputs Nat
        [⟨.queued, none⟩, ⟨.running, none⟩, ⟨.running, none⟩,
          ⟨.completed, none⟩])).observed.dropLast.all
      (fun x => !x.isTerminal) = true) :=
  ⟨(observed_lifecycle Nat _).1 (by decide), (observed_lifecycle Nat _).2⟩

end Faultline
